import Mathlib

/-! MiniMirror / TonMirror: the mirroring engine and its request handlers

A shallow embedding of `src/MiniMirror.go` (single-tenant variant) and
`src/TonMirror.go` (multi-tenant variant), followed by theorems about the
retry loop, the header and query policy, the body rewrite pipeline and the
resolution of the target configuration.

Modelling conventions.

* A Go `string` is a Lean `String`: bodies, domains and header names are taken
  to be valid UTF-8 text, so that a Go rune is a Lean `Char`.
* A Go `map[string][]string` that the code only adds to and hands over
  (`http.Header`, `url.Values`) is a function from a key to its list of values.
  `http.Header.Add` stores under the canonical form of the key, as Go does;
  `url.Values.Add` stores under the key as given.
* A Go map that the code ranges over (`c.GetReqHeaders()`, `c.Queries()`,
  `resp.Header`) is the list of its entries in the order the `range` loop
  happens to visit them.
* The network is a stream of attempt outcomes: entry `i` is what the `i`-th
  call of `client.Do` gives back.
* Logging is not modelled.
-/

namespace Mirror

/-! ## The Go library functions the code calls -/

/-- `http.Header` and `url.Values`: every key has a list of values, empty when the key is absent. -/
abbrev MultiMap := String → List String

/-- The map with no entries. -/
def MultiMap.empty : MultiMap := fun _ => []

/-- `url.Values.Add`, and `http.Header.Add` once its key is canonical: append `value` to the
values of `key`. -/
def MultiMap.Add (m : MultiMap) (key value : String) : MultiMap :=
  fun k => if k = key then m k ++ [value] else m k

/-- The left-to-right scan of `strings.Replace` for a non-empty `old`: with `skip = 0` the scan
is at a position where a match may start; a match emits `new` and skips the rest of `old`. -/
def replaceScan (old new : List Char) : Nat → List Char → List Char
  | _, [] => []
  | skip + 1, _ :: cs => replaceScan old new skip cs
  | 0, c :: cs =>
    if old.isPrefixOf (c :: cs) then new ++ replaceScan old new (old.length - 1) cs
    else c :: replaceScan old new 0 cs

end Mirror

namespace strings

/-- Go's `strings.ReplaceAll(s, old, new)`: `s` itself when `old == new`; for an empty `old`,
`new` is inserted before every rune and at the end; otherwise the non-overlapping occurrences
of `old`, found left to right, are replaced by `new`. -/
def ReplaceAll (s old new : String) : String :=
  if old = new then s
  else if old = "" then ⟨new.data ++ s.data.flatMap (fun c => c :: new.data)⟩
  else ⟨Mirror.replaceScan old.data new.data 0 s.data⟩

end strings

namespace textproto

/-- Go's `validHeaderFieldByte`: the token characters of RFC 7230, that is the digits, the ASCII
letters and the fifteen signs with the codes listed. -/
def validHeaderFieldByte (c : Char) : Bool :=
  (48 ≤ c.toNat && c.toNat ≤ 57) || (65 ≤ c.toNat && c.toNat ≤ 90) ||
    (97 ≤ c.toNat && c.toNat ≤ 122) ||
    [33, 35, 36, 37, 38, 39, 42, 43, 45, 46, 94, 95, 96, 124, 126].contains c.toNat

/-- The loop of Go's `canonicalMIMEHeaderKey` that rewrites the letters: upper case at the
start and after each dash, lower case elsewhere; `upper` says which applies to the next
character. -/
def canonicalLetters : Bool → List Char → List Char
  | _, [] => []
  | upper, c :: cs =>
    let c :=
      if upper = true ∧ 'a' ≤ c ∧ c ≤ 'z' then c.toUpper
      else if upper = false ∧ 'A' ≤ c ∧ c ≤ 'Z' then c.toLower
      else c
    c :: canonicalLetters (c == '-') cs

/-- Go's `textproto.CanonicalMIMEHeaderKey`, which is `http.CanonicalHeaderKey`: a key that
has a character outside the token characters (a space among them) is returned unchanged;
otherwise its letters are put in canonical case. The table of common headers that Go consults
returns the same text. -/
def CanonicalMIMEHeaderKey (s : String) : String :=
  if s.data.all validHeaderFieldByte then ⟨canonicalLetters true s.data⟩ else s

end textproto

namespace http

/-- Go's `http.Header`, a `map[string][]string` whose keys are canonical header names. -/
abbrev Header := Mirror.MultiMap

/-- Go's `Header.Add(key, value)`: append `value` to the values of the canonical form of
`key`. -/
def Header.Add (h : Header) (key value : String) : Header :=
  Mirror.MultiMap.Add h (textproto.CanonicalMIMEHeaderKey key) value

/-- Go's `Header.Values(key)`: the values stored under the canonical form of `key`. -/
def Header.Values (h : Header) (key : String) : List String :=
  h (textproto.CanonicalMIMEHeaderKey key)

end http

namespace Mirror

/-! ## Requests, responses and the network -/

/-- The part of `*fiber.Ctx` the handlers read: the inbound request. -/
structure Ctx where
  /-- Value of `c.Method()`. -/
  Method : String
  /-- Value of `c.Path()`. -/
  Path : String
  /-- Value of `c.Body()`. -/
  Body : String
  /-- Entries of `c.GetReqHeaders()`, a `map[string][]string`, in range order. -/
  GetReqHeaders : List (String × List String)
  /-- Entries of `c.Queries()`, a `map[string]string`, in range order. -/
  Queries : List (String × String)
  /-- Value of `c.Query(key)` for every key: the first value of the parameter in the query
  string, `""` when it is absent. -/
  Query : String → String

/-- The outbound `*http.Request` as handed to `client.Do`. -/
structure Request where
  /-- Method given to `http.NewRequest`. -/
  Method : String
  /-- URL given to `http.NewRequest`. -/
  URL : String
  /-- Request body. -/
  Body : String
  /-- Contents of `req.Header`. -/
  Header : http.Header
  /-- Contents of `q`, encoded into `req.URL.RawQuery`. -/
  Query : MultiMap

/-- What one call of `client.Do` gives back. -/
inductive Outcome where
  /-- A non-nil `err`: the call failed at the transport level. -/
  | err : Outcome
  /-- A response: `resp.StatusCode`, the entries of `resp.Header` in range order, and the result
  of `io.ReadAll(resp.Body)`, `none` when reading fails. -/
  | resp (StatusCode : Int) (Header : List (String × List String)) (Body : Option String) : Outcome

/-- Everything outside the process that `mirrorUrl` depends on. -/
structure Net where
  /-- Whether `http.NewRequest(method, url, _)` returns an error. -/
  newRequestErr : String → String → Bool
  /-- The parameters `req.URL.Query()` parses out of the URL. -/
  urlQuery : String → MultiMap
  /-- The outcome of the `i`-th call of `client.Do`, counted from 0. -/
  outcomes : Nat → Outcome

/-- The network after one call of `client.Do` has been made. -/
def Net.next (net : Net) : Net :=
  { net with outcomes := fun i => net.outcomes (i + 1) }

/-- What the handler sends to the caller. -/
inductive Reply where
  /-- Result of `c.Status(status).SendStatus(status)`, after the `c.Set` calls listed in `set`. -/
  | SendStatus (status : Int) (set : List (String × String)) : Reply
  /-- Result of `c.Status(status).Send(body)`, after the `c.Set` calls listed in `set`. -/
  | Send (status : Int) (set : List (String × String)) (body : String) : Reply

/-- The status code of a reply. -/
def Reply.status : Reply → Int
  | .SendStatus s _ => s
  | .Send s _ _ => s

/-- The body handed to `Send`, if the reply was made by `Send`. -/
def Reply.body : Reply → Option String
  | .SendStatus _ _ => none
  | .Send _ _ b => some b

/-- The observable result of a handler: the requests handed to `client.Do`, in order, and the
reply to the caller. -/
structure Result where
  /-- Requests handed to `client.Do`, first one first. -/
  sent : List Request
  /-- Reply to the caller. -/
  reply : Reply

/-- The result of a recursive call, seen from the caller that has already sent `req`. -/
def Result.after (req : Request) (r : Result) : Result :=
  { r with sent := req :: r.sent }

/-- The `c.Set(name, value)` calls made by the loop over `resp.Header`. -/
def setCalls (header : List (String × List String)) : List (String × String) :=
  header.flatMap (fun nv => nv.2.map (fun value => (nv.1, value)))

/-- The loop `for key, val := range c.Queries()` of both variants: every parameter except
`EXTERNAL_URL` is added to `q`. -/
def copyQueries (queries : List (String × String)) (q : MultiMap) : MultiMap :=
  queries.foldl (fun q kv => if kv.1 = "EXTERNAL_URL" then q else q.Add kv.1 kv.2) q

end Mirror

open Mirror

/-! ## `src/MiniMirror.go` -/

namespace MiniMirror

/-- The Go `type replaceItem struct`. -/
structure replaceItem where
  /-- Field `Old`. -/
  Old : String
  /-- Field `New`. -/
  New : String

/-- The package-level variables, read once at startup. -/
structure Config where
  /-- Variable `TargetDomain`. -/
  TargetDomain : String
  /-- Variable `TargetEndpoint`. -/
  TargetEndpoint : String
  /-- Variable `SecondaryDomains`. -/
  SecondaryDomains : List String
  /-- Variable `ReplaceItems`. -/
  ReplaceItems : List replaceItem

/-- The Go `const MaxRetry = 3`. -/
def MaxRetry : Int := 3

/-- Names of the first `switch k`, whose case ends in `continue`. -/
def skippedHeaders : List String :=
  ["If-None-Match", "If-Modified-Since", "If-Range", "X-Cloud-Trace-Context",
   "X-Forwarded-Proto", "X-Forwarded-For", "Forwarded", "Sec-Ch-Ua-Platform:", "Sec-Ch-Ua",
   "Sec-Ch-Ua-Mobile", "Sec-Fetch-Site", "Sec-Fetch-Mode", "Sec-Fetch-Dest", "Priority",
   "Accept-Encoding"]

/-- Names of the second `switch k`, whose case calls `req.Header.Add(k, vv)`. -/
def forwardedHeaders : List String :=
  ["Host", "Accept", "User-Agent", "Accept-Language"]

/-- The loop `for k, v := range c.GetReqHeaders() { for _, vv := range v { ... } }`. -/
def copyHeaders (headers : List (String × List String)) (h : http.Header) : http.Header :=
  headers.foldl (fun h kv =>
    kv.2.foldl (fun h vv =>
      if kv.1 ∈ skippedHeaders then h
      else if kv.1 ∈ forwardedHeaders then http.Header.Add h kv.1 vv
      else h) h) h

/-- The request `mirrorUrl` builds before `client.Do(req)`. -/
def newRequest (net : Net) (url : String) (c : Ctx) : Request :=
  { Method := c.Method
    URL := url
    Body := c.Body
    Header := http.Header.Add (copyHeaders c.GetReqHeaders MultiMap.empty) "MINIMIRROR" "TRUE"
    Query := copyQueries c.Queries (net.urlQuery url) }

/-- The block `// Replace preset strings`. -/
def replacePreset (items : List replaceItem) (body : String) : String :=
  if items.length > 0 then
    items.foldl (fun body item => strings.ReplaceAll body item.Old item.New) body
  else body

/-- The statement `// Replace domain with relative link`. -/
def replaceDomain (domain : String) (body : String) : String :=
  strings.ReplaceAll body (domain ++ "/") "/"

/-- The block `// Replace secondary domains if there are any with proxy link`. -/
def replaceSecondary (secondary : List String) (body : String) : String :=
  if secondary.length > 0 ∧ ¬ (secondary.getD 0 "" = "") then
    secondary.foldl (fun body secDomain =>
      strings.ReplaceAll body secDomain ("/_EXTERNAL_?EXTERNAL_URL=" ++ secDomain)) body
  else body

/-- The three rewrites of the response body, in the order of the source. -/
def rewriteBody (cfg : Config) (body : String) : String :=
  replaceSecondary cfg.SecondaryDomains
    (replaceDomain cfg.TargetDomain (replacePreset cfg.ReplaceItems body))

/-- The Go `func mirrorUrl(url string, c *fiber.Ctx, retry int8) error`. -/
def mirrorUrl (cfg : Config) (net : Net) (url : String) (c : Ctx) (retry : Int) : Result :=
  if net.newRequestErr c.Method url then
    ⟨[], .SendStatus 500 []⟩
  else
    let req := newRequest net url c
    match net.outcomes 0 with
    | .err =>
      if retry < MaxRetry then
        (mirrorUrl cfg net.next url c (retry + 1)).after req
      else
        ⟨[req], .SendStatus 500 []⟩
    | .resp StatusCode Header Body =>
      if StatusCode ≥ 500 ∧ StatusCode < 600 ∧ retry < MaxRetry then
        (mirrorUrl cfg net.next url c (retry + 1)).after req
      else
        match Body with
        | none => ⟨[req], .SendStatus 500 (setCalls Header)⟩
        | some body => ⟨[req], .Send StatusCode (setCalls Header) (rewriteBody cfg body)⟩
termination_by (MaxRetry - retry).toNat
decreasing_by all_goals (simp only [MaxRetry] at *; omega)

/-- The Go `func handleInternalRequest(c *fiber.Ctx) error`. -/
def handleInternalRequest (cfg : Config) (net : Net) (c : Ctx) : Result :=
  let newURL := c.Path
  let newURL := if cfg.TargetEndpoint ≠ "" then cfg.TargetEndpoint ++ newURL
                else cfg.TargetDomain ++ newURL
  mirrorUrl cfg net newURL c 0

/-- The Go `func handleExternalRequest(c *fiber.Ctx) error`. -/
def handleExternalRequest (cfg : Config) (net : Net) (c : Ctx) : Result :=
  mirrorUrl cfg net (c.Query "EXTERNAL_URL") c 0

end MiniMirror

/-! ## `src/TonMirror.go` -/

namespace TonMirror

/-- The Go `type TargetInfo struct`. -/
structure TargetInfo where
  /-- Field `Domain`. -/
  Domain : String
  /-- Field `Target`. -/
  Target : String
  /-- Field `SecondaryDomains`. -/
  SecondaryDomains : List String

/-- The zero value of `TargetInfo`, which indexing the map gives for a missing key. -/
def TargetInfo.zero : TargetInfo := ⟨"", "", []⟩

/-- The package-level variables, read once at startup. -/
structure Config where
  /-- Variable `config`, a `map[string]TargetInfo`: `none` for a key that is absent. -/
  config : String → Option TargetInfo
  /-- Variable `hostHeader`. -/
  hostHeader : String

/-- The one-value index expression `config[key]`. -/
def Config.index (cfg : Config) (key : String) : TargetInfo :=
  (cfg.config key).getD TargetInfo.zero

/-- The Go `const MaxRetry = 3`. -/
def MaxRetry : Int := 3

/-- Names of the `switch k`, whose case calls `req.Header.Add(k, vv)`. -/
def forwardedHeaders : List String :=
  ["Host", "Accept", "User-Agent", "Accept-Language"]

/-- The loop `for k, v := range c.GetReqHeaders() { for _, vv := range v { ... } }`. -/
def copyHeaders (headers : List (String × List String)) (h : http.Header) : http.Header :=
  headers.foldl (fun h kv =>
    kv.2.foldl (fun h vv =>
      if kv.1 ∈ forwardedHeaders then http.Header.Add h kv.1 vv
      else h) h) h

/-- The request `mirrorUrl` builds before `client.Do(req)`. -/
def newRequest (net : Net) (url : String) (c : Ctx) : Request :=
  { Method := c.Method
    URL := url
    Body := c.Body
    Header := http.Header.Add (copyHeaders c.GetReqHeaders MultiMap.empty) "TON_MIRROR" "TRUE"
    Query := copyQueries c.Queries (net.urlQuery url) }

/-- The statement `// Replace domain with relative link`. -/
def replaceDomain (domain : String) (body : String) : String :=
  strings.ReplaceAll body (domain ++ "/") "/"

/-- The block `// Replace secondary domains if there are any with proxy link`. -/
def replaceSecondary (secondary : List String) (body : String) : String :=
  if secondary.length > 0 then
    secondary.foldl (fun body secDomain =>
      strings.ReplaceAll body secDomain ("/_EXTERNAL_?EXTERNAL_URL=" ++ secDomain)) body
  else body

/-- The two rewrites of the response body, in the order of the source. -/
def rewriteBody (conf : TargetInfo) (body : String) : String :=
  replaceSecondary conf.SecondaryDomains (replaceDomain conf.Domain body)

/-- The Go `func mirrorUrl(url string, c *fiber.Ctx, retry int8, conf TargetInfo) error`. -/
def mirrorUrl (net : Net) (url : String) (c : Ctx) (retry : Int) (conf : TargetInfo) : Result :=
  if net.newRequestErr c.Method url then
    ⟨[], .SendStatus 500 []⟩
  else
    let req := newRequest net url c
    match net.outcomes 0 with
    | .err =>
      if retry < MaxRetry then
        (mirrorUrl net.next url c (retry + 1) conf).after req
      else
        ⟨[req], .SendStatus 500 []⟩
    | .resp StatusCode Header Body =>
      if StatusCode ≥ 500 ∧ StatusCode < 600 ∧ retry < MaxRetry then
        (mirrorUrl net.next url c (retry + 1) conf).after req
      else
        match Body with
        | none => ⟨[req], .SendStatus 500 (setCalls Header)⟩
        | some body => ⟨[req], .Send StatusCode (setCalls Header) (rewriteBody conf body)⟩
termination_by (MaxRetry - retry).toNat
decreasing_by all_goals (simp only [MaxRetry] at *; omega)

/-- The Go `func handleInternalRequest(c *fiber.Ctx) error`. -/
def handleInternalRequest (cfg : Config) (net : Net) (c : Ctx) : Result :=
  let newURL := c.Path
  let host := (c.GetReqHeaders.lookup cfg.hostHeader).getD []
  if host.length = 0 then
    ⟨[], .Send 400 [] "Host header is not set"⟩
  else
    match cfg.config (host.getD 0 "") with
    | none => ⟨[], .Send 404 [] "Host config not found"⟩
    | some conf =>
      let newURL := conf.Target ++ newURL
      mirrorUrl net newURL c 0 (cfg.index "sota.ton")

/-- The Go `func handleExternalRequest(c *fiber.Ctx) error`. -/
def handleExternalRequest (cfg : Config) (net : Net) (c : Ctx) : Result :=
  mirrorUrl net (c.Query "EXTERNAL_URL") c 0 (cfg.index "sota.ton")

end TonMirror

/-! ## The retry loop, seen once for both variants -/

namespace Mirror

/-- Whether an outcome makes `mirrorUrl` retry while retries are left: a transport error or a
status in 500..599. -/
def Outcome.retryable : Outcome → Bool
  | .err => true
  | .resp StatusCode _ _ => decide (StatusCode ≥ 500 ∧ StatusCode < 600)

/-- The reply `mirrorUrl` gives on the attempt it does not retry, for a body rewrite `rewrite`. -/
def finish (rewrite : String → String) : Outcome → Reply
  | .err => .SendStatus 500 []
  | .resp _ Header none => .SendStatus 500 (setCalls Header)
  | .resp StatusCode Header (some body) => .Send StatusCode (setCalls Header) (rewrite body)

/-- The part of `mirrorUrl` from `client.Do(req)` on, for a request `req` and a body rewrite
`rewrite` that stay the same over the retries. -/
def retryLoop (req : Request) (rewrite : String → String) (net : Net) (retry : Int) : Result :=
  if (net.outcomes 0).retryable = true ∧ retry < 3 then
    (retryLoop req rewrite net.next (retry + 1)).after req
  else
    ⟨[req], finish rewrite (net.outcomes 0)⟩
termination_by (3 - retry).toNat
decreasing_by omega

end Mirror

namespace Mirror

/-- The status policy of `mirrorUrl`, stated for a result `r` obtained over the network `net`
with the body rewrite `rewrite`: at least one request was sent; when the last attempt got a
response whose body could be read, the reply is that response's status with the rewritten body;
when the last attempt failed at the transport level, all four attempts were used and the reply
is 500; and an attempt answered with a status outside 500..599 is the last one. -/
def StatusFromLastAttempt (rewrite : String → String) (net : Net) (r : Result) : Prop :=
  1 ≤ r.sent.length ∧
  (∀ s h b, net.outcomes (r.sent.length - 1) = .resp s h (some b) →
    r.reply.status = s ∧ r.reply = .Send s (setCalls h) (rewrite b)) ∧
  (net.outcomes (r.sent.length - 1) = .err →
    r.reply = .SendStatus 500 [] ∧ r.sent.length = 4) ∧
  (∀ i s h b, i < r.sent.length → net.outcomes i = .resp s h b →
    ¬ (500 ≤ s ∧ s < 600) → i + 1 = r.sent.length)

end Mirror

/-! ## Concrete inputs used to evaluate the code -/

namespace Examples

/-- A network on which `http.NewRequest` succeeds, URLs carry no query of their own, and the
`i`-th call of `client.Do` gives `o i`. -/
def netOf (o : Nat → Outcome) : Net :=
  { newRequestErr := fun _ _ => false
    urlQuery := fun _ => MultiMap.empty
    outcomes := o }

/-- A backend that answers every attempt with 503. -/
def always503 : Net := netOf (fun _ => .resp 503 [] (some "unavailable"))

/-- A backend whose first attempt fails at the transport level, whose second answers 502 and
whose third answers 404. -/
def flaky : Net :=
  netOf (fun i =>
    match i with
    | 0 => .err
    | 1 => .resp 502 [] (some "bad gateway")
    | _ => .resp 404 [] (some "nothing at origin.example/page"))

/-- A backend that answers 200 with the body `Visit origin.example/page`. -/
def originPage : Net := netOf (fun _ => .resp 200 [] (some "Visit origin.example/page"))

/-- A `GET /page` request. -/
def getPage : Ctx :=
  { Method := "GET"
    Path := "/page"
    Body := ""
    GetReqHeaders := [("Host", ["mirror.example"]), ("Accept", ["text/html", "*/*"]),
      ("Cookie", ["session=1"]), ("If-None-Match", ["abc"])]
    Queries := [("page", "2"), ("EXTERNAL_URL", "http://other.example")]
    Query := fun key =>
      if key = "page" then "2"
      else if key = "EXTERNAL_URL" then "http://other.example"
      else "" }

/-- Single-tenant configuration: domain `origin.example`, no endpoint, no replace rules, and
`SECONDARY_DOMAINS` unset, which `strings.Split` turns into one empty string. -/
def miniCfg : MiniMirror.Config :=
  { TargetDomain := "origin.example"
    TargetEndpoint := ""
    SecondaryDomains := [""]
    ReplaceItems := [] }

/-- The rewrite configuration of one tenant. -/
def tonConf : TonMirror.TargetInfo :=
  { Domain := "a.example", Target := "http://backend-a", SecondaryDomains := [] }

end Examples

namespace Mirror

/-- The values an inbound header multimap holds under `name`, in range order. -/
def inboundValues (headers : List (String × List String)) (name : String) : List String :=
  (headers.filter (fun kv => kv.1 = name)).flatMap (fun kv => kv.2)

/-- The values an inbound query map holds under `key`. -/
def inboundQuery (queries : List (String × String)) (key : String) : List String :=
  (queries.filter (fun kv => kv.1 = key)).map (fun kv => kv.2)

end Mirror

namespace Examples

/-- The request `getPage` with another `EXTERNAL_URL` parameter, its entries visited in the
other order. -/
def getPageElsewhere : Ctx :=
  { getPage with
    Queries := [("EXTERNAL_URL", "http://third.example"), ("page", "2")]
    Query := fun key =>
      if key = "page" then "2"
      else if key = "EXTERNAL_URL" then "http://third.example"
      else "" }

/-- A `GET /page` request whose `Host` header is `host`. -/
def getPageAt (host : String) : Ctx :=
  { Method := "GET"
    Path := "/page"
    Body := ""
    GetReqHeaders := [("Accept", ["text/html"]), ("Host", [host])]
    Queries := []
    Query := fun _ => "" }

/-- A `GET /page` request without a `Host` header. -/
def getPageNoHost : Ctx :=
  { Method := "GET"
    Path := "/page"
    Body := ""
    GetReqHeaders := [("Accept", ["text/html"])]
    Queries := []
    Query := fun _ => "" }

/-- Multi-tenant configuration with the one host `a.example`, mirrored from
`http://backend-a`; the host header is the default `Host`. -/
def tonCfg : TonMirror.Config :=
  { config := fun key => if key = "a.example" then some tonConf else none
    hostHeader := "Host" }

/-- Multi-tenant configuration whose entry for `a.example` has an empty `target`. -/
def tonCfgNoTarget : TonMirror.Config :=
  { config := fun key =>
      if key = "a.example" then
        some { Domain := "a.example", Target := "", SecondaryDomains := [] }
      else none
    hostHeader := "Host" }

/-- A network on which every attempt fails at the transport level. -/
def unreachable : Net := netOf (fun _ => .err)

/-- A backend that answers 200 with the body `Visit a.example/page`. -/
def tenantPage : Net := netOf (fun _ => .resp 200 [] (some "Visit a.example/page"))

end Examples

/-! # Theorems -/

theorem Mirror.retryLoop_spec (req : Request) (rewrite : String → String) (k : Nat) :
    ∀ (net : Net) (retry : Int), (3 - retry).toNat = k →
      ∃ n : Nat, 1 ≤ n ∧ n ≤ k + 1 ∧
        (retryLoop req rewrite net retry).sent = List.replicate n req ∧
        (retryLoop req rewrite net retry).reply = finish rewrite (net.outcomes (n - 1)) ∧
        (∀ i, i + 1 < n → (net.outcomes i).retryable = true) ∧
        ((net.outcomes (n - 1)).retryable = true → n = k + 1) := by
  induction k with
  | zero =>
    intro net retry hk
    have hr : ¬ retry < 3 := by omega
    refine ⟨1, le_refl _, le_refl _, ?_, ?_, ?_, ?_⟩
    · rw [retryLoop]; simp [hr]
    · rw [retryLoop]; simp [hr]
    · intro i hi; omega
    · intro _; rfl
  | succ k ih =>
    intro net retry hk
    have hr : retry < 3 := by omega
    by_cases ho : (net.outcomes 0).retryable = true
    · obtain ⟨n, h1, h2, h3, h4, h5, h6⟩ := ih net.next (retry + 1) (by omega)
      have hstep : retryLoop req rewrite net retry
          = (retryLoop req rewrite net.next (retry + 1)).after req := by
        rw [retryLoop]; simp [ho, hr]
      have hn : n + 1 - 1 = (n - 1) + 1 := by omega
      refine ⟨n + 1, by omega, by omega, ?_, ?_, ?_, ?_⟩
      · rw [hstep]; simp [Result.after, h3, List.replicate_succ]
      · rw [hstep, hn]; simpa [Result.after, Net.next] using h4
      · intro i hi
        cases i with
        | zero => exact ho
        | succ j => exact h5 j (by omega)
      · intro hlast
        rw [hn] at hlast
        have := h6 hlast
        omega
    · refine ⟨1, le_refl _, by omega, ?_, ?_, ?_, ?_⟩
      · rw [retryLoop]; simp [ho]
      · rw [retryLoop]; simp [ho]
      · intro i hi; omega
      · intro hlast; exact absurd hlast ho

theorem MiniMirror.mirrorUrl_eq_retryLoop (cfg : MiniMirror.Config) (url : String) (c : Ctx)
    (k : Nat) : ∀ (net : Net) (retry : Int), (3 - retry).toNat = k →
      MiniMirror.mirrorUrl cfg net url c retry =
        if net.newRequestErr c.Method url then ⟨[], .SendStatus 500 []⟩
        else retryLoop (MiniMirror.newRequest net url c) (MiniMirror.rewriteBody cfg) net retry := by
  induction k with
  | zero =>
    intro net retry hk
    have hr : ¬ retry < 3 := by omega
    rw [MiniMirror.mirrorUrl, retryLoop]
    cases ho : net.outcomes 0 with
    | err => simp [MiniMirror.MaxRetry, hr, finish]
    | resp s h b => cases b <;> simp [MiniMirror.MaxRetry, hr, finish]
  | succ k ih =>
    intro net retry hk
    have hr : retry < 3 := by omega
    have hnext := ih net.next (retry + 1) (by omega)
    have hreq : MiniMirror.newRequest net.next url c = MiniMirror.newRequest net url c := rfl
    have herr : net.next.newRequestErr = net.newRequestErr := rfl
    rw [MiniMirror.mirrorUrl, retryLoop, hnext, hreq, herr]
    by_cases hN : net.newRequestErr c.Method url = true
    · simp [hN]
    · cases ho : net.outcomes 0 with
      | err => simp [MiniMirror.MaxRetry, hr, finish, hN, Outcome.retryable]
      | resp s h b =>
        by_cases h5 : s ≥ 500 ∧ s < 600
        · simp [MiniMirror.MaxRetry, hr, finish, hN, Outcome.retryable, h5]
        · cases b <;> simp [MiniMirror.MaxRetry, hr, finish, hN, Outcome.retryable, h5]

theorem TonMirror.ton_mirrorUrl_eq_retryLoop (conf : TonMirror.TargetInfo) (url : String) (c : Ctx)
    (k : Nat) : ∀ (net : Net) (retry : Int), (3 - retry).toNat = k →
      TonMirror.mirrorUrl net url c retry conf =
        if net.newRequestErr c.Method url then ⟨[], .SendStatus 500 []⟩
        else retryLoop (TonMirror.newRequest net url c) (TonMirror.rewriteBody conf) net retry := by
  induction k with
  | zero =>
    intro net retry hk
    have hr : ¬ retry < 3 := by omega
    rw [TonMirror.mirrorUrl, retryLoop]
    cases ho : net.outcomes 0 with
    | err => simp [TonMirror.MaxRetry, hr, finish]
    | resp s h b => cases b <;> simp [TonMirror.MaxRetry, hr, finish]
  | succ k ih =>
    intro net retry hk
    have hr : retry < 3 := by omega
    have hnext := ih net.next (retry + 1) (by omega)
    have hreq : TonMirror.newRequest net.next url c = TonMirror.newRequest net url c := rfl
    have herr : net.next.newRequestErr = net.newRequestErr := rfl
    rw [TonMirror.mirrorUrl, retryLoop, hnext, hreq, herr]
    by_cases hN : net.newRequestErr c.Method url = true
    · simp [hN]
    · cases ho : net.outcomes 0 with
      | err => simp [TonMirror.MaxRetry, hr, finish, hN, Outcome.retryable]
      | resp s h b =>
        by_cases h5 : s ≥ 500 ∧ s < 600
        · simp [TonMirror.MaxRetry, hr, finish, hN, Outcome.retryable, h5]
        · cases b <;> simp [TonMirror.MaxRetry, hr, finish, hN, Outcome.retryable, h5]

/-- When `http.NewRequest` succeeds, `mirrorUrl` started at `retry = 0` is the retry loop. -/
theorem MiniMirror.mirrorUrl_zero (cfg : MiniMirror.Config) (net : Net) (url : String) (c : Ctx)
    (hN : net.newRequestErr c.Method url = false) :
    MiniMirror.mirrorUrl cfg net url c 0 =
      retryLoop (MiniMirror.newRequest net url c) (MiniMirror.rewriteBody cfg) net 0 := by
  rw [MiniMirror.mirrorUrl_eq_retryLoop cfg url c 3 net 0 (by decide)]; simp [hN]

/-- When `http.NewRequest` succeeds, `mirrorUrl` started at `retry = 0` is the retry loop. -/
theorem TonMirror.ton_mirrorUrl_zero (conf : TonMirror.TargetInfo) (net : Net) (url : String)
    (c : Ctx) (hN : net.newRequestErr c.Method url = false) :
    TonMirror.mirrorUrl net url c 0 conf =
      retryLoop (TonMirror.newRequest net url c) (TonMirror.rewriteBody conf) net 0 := by
  rw [TonMirror.ton_mirrorUrl_eq_retryLoop conf url c 3 net 0 (by decide)]; simp [hN]

/-- When `http.NewRequest` fails, nothing is sent and the reply is 500. -/
theorem MiniMirror.mirrorUrl_newRequestErr (cfg : MiniMirror.Config) (net : Net) (url : String)
    (c : Ctx) (retry : Int) (hN : net.newRequestErr c.Method url = true) :
    MiniMirror.mirrorUrl cfg net url c retry = ⟨[], .SendStatus 500 []⟩ := by
  rw [MiniMirror.mirrorUrl]; simp [hN]

/-- When `http.NewRequest` fails, nothing is sent and the reply is 500. -/
theorem TonMirror.ton_mirrorUrl_newRequestErr (conf : TonMirror.TargetInfo) (net : Net) (url : String)
    (c : Ctx) (retry : Int) (hN : net.newRequestErr c.Method url = true) :
    TonMirror.mirrorUrl net url c retry conf = ⟨[], .SendStatus 500 []⟩ := by
  rw [TonMirror.mirrorUrl]; simp [hN]

/-- The retry loop started at `retry = 0` sends between one and four requests. -/
theorem Mirror.retryLoop_length (req : Request) (rewrite : String → String) (net : Net) :
    1 ≤ (retryLoop req rewrite net 0).sent.length ∧
      (retryLoop req rewrite net 0).sent.length ≤ 4 := by
  obtain ⟨n, h1, h2, h3, -⟩ := retryLoop_spec req rewrite 3 net 0 (by decide)
  rw [h3, List.length_replicate]
  exact ⟨h1, h2⟩

/-- Every request the retry loop sends is the request it was given. -/
theorem Mirror.retryLoop_sent (req : Request) (rewrite : String → String) (net : Net) :
    ∀ r ∈ (retryLoop req rewrite net 0).sent, r = req := by
  obtain ⟨n, -, -, h3, -⟩ := retryLoop_spec req rewrite 3 net 0 (by decide)
  rw [h3]
  intro r hr
  exact List.eq_of_mem_replicate hr

/-- When every outcome is retryable, the retry loop started at `retry = 0` sends exactly four
requests and answers with what the fourth attempt gave. -/
theorem Mirror.retryLoop_all_retryable (req : Request) (rewrite : String → String) (net : Net)
    (hall : ∀ i, (net.outcomes i).retryable = true) :
    (retryLoop req rewrite net 0).sent.length = 4 ∧
      (retryLoop req rewrite net 0).reply = finish rewrite (net.outcomes 3) := by
  obtain ⟨n, -, -, h3, h4, -, h6⟩ := retryLoop_spec req rewrite 3 net 0 (by decide)
  have hn : n = 4 := h6 (hall _)
  subst hn
  rw [h3, h4, List.length_replicate]
  exact ⟨rfl, rfl⟩

/-- The status policy holds of the retry loop started at `retry = 0`. -/
theorem Mirror.retryLoop_statusFromLastAttempt (req : Request) (rewrite : String → String)
    (net : Net) : StatusFromLastAttempt rewrite net (retryLoop req rewrite net 0) := by
  obtain ⟨n, h1, h2, h3, h4, h5, h6⟩ := retryLoop_spec req rewrite 3 net 0 (by decide)
  have hlen : (retryLoop req rewrite net 0).sent.length = n := by
    rw [h3, List.length_replicate]
  unfold StatusFromLastAttempt
  rw [hlen, h4]
  refine ⟨h1, ?_, ?_, ?_⟩
  · intro s h b hlast
    rw [hlast]
    exact ⟨rfl, rfl⟩
  · intro hlast
    refine ⟨by rw [hlast]; rfl, ?_⟩
    exact h6 (by rw [hlast]; rfl)
  · intro i s h b hi ho h5xx
    by_contra hne
    have hlt : i + 1 < n := by omega
    have hr := h5 i hlt
    rw [ho] at hr
    simp [Outcome.retryable] at hr
    exact h5xx ⟨hr.1, hr.2⟩

/-- C1, amended: started with attempt counter 0, `mirrorUrl` makes at most `MaxRetry + 1 = 4`
outbound calls for every sequence of attempt outcomes, in both variants; and when
`http.NewRequest` succeeds and every attempt answers 503 with a readable body, exactly four
outbound calls are made and the caller receives 503. -/
theorem mirrorUrl_outbound_calls (mcfg : MiniMirror.Config) (conf : TonMirror.TargetInfo)
    (net : Net) (url : String) (c : Ctx) :
    ((MiniMirror.mirrorUrl mcfg net url c 0).sent.length : Int) ≤ MiniMirror.MaxRetry + 1 ∧
    ((TonMirror.mirrorUrl net url c 0 conf).sent.length : Int) ≤ TonMirror.MaxRetry + 1 ∧
    (net.newRequestErr c.Method url = false →
      (∀ i, ∃ h b, net.outcomes i = .resp 503 h (some b)) →
        (MiniMirror.mirrorUrl mcfg net url c 0).sent.length = 4 ∧
        (MiniMirror.mirrorUrl mcfg net url c 0).reply.status = 503 ∧
        (TonMirror.mirrorUrl net url c 0 conf).sent.length = 4 ∧
        (TonMirror.mirrorUrl net url c 0 conf).reply.status = 503) := by
  refine ⟨?_, ?_, ?_⟩
  · cases hN : net.newRequestErr c.Method url with
    | true => rw [MiniMirror.mirrorUrl_newRequestErr _ _ _ _ _ hN]; decide
    | false =>
      rw [MiniMirror.mirrorUrl_zero _ _ _ _ hN]
      have := (retryLoop_length (MiniMirror.newRequest net url c)
        (MiniMirror.rewriteBody mcfg) net).2
      simp only [MiniMirror.MaxRetry]; omega
  · cases hN : net.newRequestErr c.Method url with
    | true => rw [TonMirror.ton_mirrorUrl_newRequestErr _ _ _ _ _ hN]; decide
    | false =>
      rw [TonMirror.ton_mirrorUrl_zero _ _ _ _ hN]
      have := (retryLoop_length (TonMirror.newRequest net url c)
        (TonMirror.rewriteBody conf) net).2
      simp only [TonMirror.MaxRetry]; omega
  · intro hN hall
    have hret : ∀ i, (net.outcomes i).retryable = true := by
      intro i
      obtain ⟨h, b, hi⟩ := hall i
      rw [hi]; simp [Outcome.retryable]
    obtain ⟨h, b, h3⟩ := hall 3
    rw [MiniMirror.mirrorUrl_zero _ _ _ _ hN, TonMirror.ton_mirrorUrl_zero _ _ _ _ hN]
    have hm := retryLoop_all_retryable (MiniMirror.newRequest net url c)
      (MiniMirror.rewriteBody mcfg) net hret
    have ht := retryLoop_all_retryable (TonMirror.newRequest net url c)
      (TonMirror.rewriteBody conf) net hret
    rw [h3] at hm ht
    refine ⟨hm.1, ?_, ht.1, ?_⟩
    · rw [hm.2]; rfl
    · rw [ht.2]; rfl

/-- Witness of C1, amended: a backend that always answers 503. -/
theorem mirrorUrl_outbound_calls_witness :
    (MiniMirror.mirrorUrl Examples.miniCfg Examples.always503 "http://origin.example/page"
        Examples.getPage 0).sent.length = 4 ∧
    (MiniMirror.mirrorUrl Examples.miniCfg Examples.always503 "http://origin.example/page"
        Examples.getPage 0).reply.status = 503 ∧
    (TonMirror.mirrorUrl Examples.always503 "http://origin.example/page"
        Examples.getPage 0 Examples.tonConf).sent.length = 4 ∧
    (TonMirror.mirrorUrl Examples.always503 "http://origin.example/page"
        Examples.getPage 0 Examples.tonConf).reply.status = 503 :=
  (mirrorUrl_outbound_calls Examples.miniCfg Examples.tonConf Examples.always503
    "http://origin.example/page" Examples.getPage).2.2 rfl
    (fun _ => ⟨[], "unavailable", rfl⟩)

/-- C1 as stated fails: with a backend that answers 503 on every attempt, the internal handler
of the single-tenant variant makes four outbound calls, not three, before it replies 503. -/
theorem handleInternalRequest_always503_four_calls :
    (MiniMirror.handleInternalRequest Examples.miniCfg Examples.always503
        Examples.getPage).sent.length = 4 ∧
    ¬ ((MiniMirror.handleInternalRequest Examples.miniCfg Examples.always503
        Examples.getPage).sent.length ≤ 3) ∧
    (MiniMirror.handleInternalRequest Examples.miniCfg Examples.always503
        Examples.getPage).reply.status = 503 := by
  have hret : ∀ i, (Examples.always503.outcomes i).retryable = true := fun _ => rfl
  unfold MiniMirror.handleInternalRequest
  rw [MiniMirror.mirrorUrl_zero _ _ _ _ rfl]
  have hm := retryLoop_all_retryable
    (MiniMirror.newRequest Examples.always503
      (if Examples.miniCfg.TargetEndpoint ≠ "" then
        Examples.miniCfg.TargetEndpoint ++ Examples.getPage.Path
       else Examples.miniCfg.TargetDomain ++ Examples.getPage.Path) Examples.getPage)
    (MiniMirror.rewriteBody Examples.miniCfg) Examples.always503 hret
  refine ⟨hm.1, ?_, ?_⟩
  · rw [hm.1]; decide
  · rw [hm.2]; rfl

/-- C2: in both variants, when `http.NewRequest` succeeds, the reply of `mirrorUrl` started at
`retry = 0` is decided by the last attempt it makes: a response with status `s` whose body can
be read is passed on with status `s`, also when `s` is a 5xx; a transport failure on the last
attempt means that the retries are exhausted and gives 500; and an attempt answered with a
status outside 500..599 is never followed by another attempt. -/
theorem mirrorUrl_status_from_last_attempt (mcfg : MiniMirror.Config)
    (conf : TonMirror.TargetInfo) (net : Net) (url : String) (c : Ctx)
    (hN : net.newRequestErr c.Method url = false) :
    StatusFromLastAttempt (MiniMirror.rewriteBody mcfg) net
      (MiniMirror.mirrorUrl mcfg net url c 0) ∧
    StatusFromLastAttempt (TonMirror.rewriteBody conf) net
      (TonMirror.mirrorUrl net url c 0 conf) := by
  rw [MiniMirror.mirrorUrl_zero _ _ _ _ hN, TonMirror.ton_mirrorUrl_zero _ _ _ _ hN]
  exact ⟨retryLoop_statusFromLastAttempt _ _ _, retryLoop_statusFromLastAttempt _ _ _⟩

/-- Witness of C2: a transport error, then a 502, then a 404. -/
theorem mirrorUrl_status_from_last_attempt_witness :
    StatusFromLastAttempt (MiniMirror.rewriteBody Examples.miniCfg) Examples.flaky
      (MiniMirror.mirrorUrl Examples.miniCfg Examples.flaky "http://origin.example/page"
        Examples.getPage 0) ∧
    StatusFromLastAttempt (TonMirror.rewriteBody Examples.tonConf) Examples.flaky
      (TonMirror.mirrorUrl Examples.flaky "http://origin.example/page" Examples.getPage 0
        Examples.tonConf) :=
  mirrorUrl_status_from_last_attempt Examples.miniCfg Examples.tonConf Examples.flaky
    "http://origin.example/page" Examples.getPage rfl

/-! ## Header and query policy -/

/-- No forwarded header name is on the skip list of the single-tenant variant. -/
theorem MiniMirror.forwarded_not_skipped :
    ∀ k ∈ MiniMirror.forwardedHeaders, k ∉ MiniMirror.skippedHeaders := by
  decide

/-- The skip list ahead of the allow-list changes nothing: both variants copy the same headers. -/
theorem MiniMirror.copyHeaders_eq_ton (headers : List (String × List String))
    (h : http.Header) :
    MiniMirror.copyHeaders headers h = TonMirror.copyHeaders headers h := by
  unfold MiniMirror.copyHeaders TonMirror.copyHeaders
  congr 1
  funext h kv
  congr 1
  funext h vv
  by_cases hf : kv.1 ∈ MiniMirror.forwardedHeaders
  · have hs := MiniMirror.forwarded_not_skipped kv.1 hf
    have hf2 : kv.1 ∈ TonMirror.forwardedHeaders := hf
    simp [hs, hf, hf2]
  · have hf2 : kv.1 ∉ TonMirror.forwardedHeaders := hf
    simp [hf, hf2]

/-- The forwarded header names are canonical already: `Header.Add` stores them as they are. -/
theorem textproto.canonical_forwarded :
    ∀ k ∈ TonMirror.forwardedHeaders, textproto.CanonicalMIMEHeaderKey k = k := by
  decide

/-- The marker names in canonical form. -/
theorem textproto.canonical_markers :
    textproto.CanonicalMIMEHeaderKey "MINIMIRROR" = "Minimirror" ∧
    textproto.CanonicalMIMEHeaderKey "TON_MIRROR" = "Ton_mirror" := by
  decide

/-- The inner loop over the values of one header name. -/
theorem TonMirror.copyValues (k : String) (vs : List String) :
    ∀ (h : http.Header) (name : String),
      vs.foldl (fun h vv =>
          if k ∈ TonMirror.forwardedHeaders then http.Header.Add h k vv else h) h name =
        h name ++ (if k = name ∧ k ∈ TonMirror.forwardedHeaders then vs else []) := by
  induction vs with
  | nil => intro h name; simp
  | cons v vs ih =>
    intro h name
    rw [List.foldl_cons, ih]
    by_cases hk : k ∈ TonMirror.forwardedHeaders
    · have hc := textproto.canonical_forwarded k hk
      by_cases hn : k = name
      · subst hn; simp [hk, http.Header.Add, hc, MultiMap.Add]
      · have hn2 : ¬ name = k := fun e => hn e.symm
        simp [hk, hn, hn2, http.Header.Add, hc, MultiMap.Add]
    · simp [hk]

/-- What the header loop adds under each name. -/
theorem TonMirror.copyHeaders_apply (headers : List (String × List String)) :
    ∀ (h : http.Header) (name : String),
      TonMirror.copyHeaders headers h name =
        h name ++ (if name ∈ TonMirror.forwardedHeaders then inboundValues headers name
                   else []) := by
  induction headers with
  | nil => intro h name; simp [TonMirror.copyHeaders, inboundValues]
  | cons kv headers ih =>
    intro h name
    have hstep : TonMirror.copyHeaders (kv :: headers) h =
        TonMirror.copyHeaders headers
          (kv.2.foldl (fun h vv =>
            if kv.1 ∈ TonMirror.forwardedHeaders then http.Header.Add h kv.1 vv else h) h) :=
      rfl
    rw [hstep, ih]
    have hval := TonMirror.copyValues kv.1 kv.2 h name
    rw [hval]
    by_cases hn : kv.1 = name
    · subst hn
      by_cases hk : kv.1 ∈ TonMirror.forwardedHeaders
      · simp [hk, inboundValues, List.filter_cons]
      · simp [hk]
    · by_cases hk : name ∈ TonMirror.forwardedHeaders
      · simp [hk, hn, inboundValues, List.filter_cons]
      · simp [hk, hn]

/-- What the query loop adds under each key. -/
theorem Mirror.copyQueries_apply (queries : List (String × String)) :
    ∀ (q : MultiMap) (key : String),
      copyQueries queries q key =
        q key ++ (if key = "EXTERNAL_URL" then [] else inboundQuery queries key) := by
  induction queries with
  | nil => intro q key; simp [copyQueries, inboundQuery]
  | cons kv queries ih =>
    intro q key
    have hstep : copyQueries (kv :: queries) q =
        copyQueries queries (if kv.1 = "EXTERNAL_URL" then q else q.Add kv.1 kv.2) := rfl
    rw [hstep, ih]
    by_cases hk : key = "EXTERNAL_URL"
    · subst hk
      by_cases he : kv.1 = "EXTERNAL_URL"
      · simp [he]
      · have he2 : ¬ "EXTERNAL_URL" = kv.1 := fun e => he e.symm
        simp [he, he2, MultiMap.Add]
    · by_cases he : kv.1 = "EXTERNAL_URL"
      · have hne : ¬ "EXTERNAL_URL" = key := fun e => hk e.symm
        simp [he, hk, inboundQuery, List.filter_cons, hne]
      · by_cases hn : kv.1 = key
        · subst hn; simp [he, MultiMap.Add, inboundQuery, List.filter_cons]
        · have hn2 : ¬ key = kv.1 := fun e => hn e.symm
          simp [he, hk, hn, hn2, MultiMap.Add, inboundQuery, List.filter_cons]

/-- Every request the retry loop sends is the request it was given, as a list equation. -/
theorem Mirror.retryLoop_sent_eq (req : Request) (rewrite : String → String) (net : Net) :
    (retryLoop req rewrite net 0).sent =
      List.replicate (retryLoop req rewrite net 0).sent.length req := by
  obtain ⟨n, -, -, h3, -⟩ := retryLoop_spec req rewrite 3 net 0 (by decide)
  rw [h3, List.length_replicate]

/-- Every attempt of `mirrorUrl` sends the request built by `newRequest`. -/
theorem MiniMirror.mirrorUrl_sent (cfg : MiniMirror.Config) (net : Net) (url : String)
    (c : Ctx) :
    (MiniMirror.mirrorUrl cfg net url c 0).sent =
      List.replicate (MiniMirror.mirrorUrl cfg net url c 0).sent.length
        (MiniMirror.newRequest net url c) := by
  cases hN : net.newRequestErr c.Method url with
  | true => rw [MiniMirror.mirrorUrl_newRequestErr _ _ _ _ _ hN]; rfl
  | false => rw [MiniMirror.mirrorUrl_zero _ _ _ _ hN]; exact retryLoop_sent_eq _ _ _

/-- Every attempt of `mirrorUrl` sends the request built by `newRequest`. -/
theorem TonMirror.ton_mirrorUrl_sent (conf : TonMirror.TargetInfo) (net : Net) (url : String)
    (c : Ctx) :
    (TonMirror.mirrorUrl net url c 0 conf).sent =
      List.replicate (TonMirror.mirrorUrl net url c 0 conf).sent.length
        (TonMirror.newRequest net url c) := by
  cases hN : net.newRequestErr c.Method url with
  | true => rw [TonMirror.ton_mirrorUrl_newRequestErr _ _ _ _ _ hN]; rfl
  | false => rw [TonMirror.ton_mirrorUrl_zero _ _ _ _ hN]; exact retryLoop_sent_eq _ _ _

/-- When `http.NewRequest` succeeds, `mirrorUrl` sends at least one request. -/
theorem MiniMirror.mirrorUrl_sent_pos (cfg : MiniMirror.Config) (net : Net) (url : String)
    (c : Ctx) (hN : net.newRequestErr c.Method url = false) :
    1 ≤ (MiniMirror.mirrorUrl cfg net url c 0).sent.length := by
  rw [MiniMirror.mirrorUrl_zero _ _ _ _ hN]; exact (retryLoop_length _ _ _).1

/-- When `http.NewRequest` succeeds, `mirrorUrl` sends at least one request. -/
theorem TonMirror.ton_mirrorUrl_sent_pos (conf : TonMirror.TargetInfo) (net : Net) (url : String)
    (c : Ctx) (hN : net.newRequestErr c.Method url = false) :
    1 ≤ (TonMirror.mirrorUrl net url c 0 conf).sent.length := by
  rw [TonMirror.ton_mirrorUrl_zero _ _ _ _ hN]; exact (retryLoop_length _ _ _).1

/-- C3: in both variants every request `mirrorUrl` hands to `client.Do` is the one built by
`newRequest`, and under every header name that request carries exactly the inbound values of
that name when the name is `Host`, `Accept`, `User-Agent` or `Accept-Language`, nothing from
the inbound request otherwise, plus the value `TRUE` of the marker header. `Header.Add` keeps
the marker under the canonical form of its name, `Minimirror` for `MINIMIRROR` and `Ton_mirror`
for `TON_MIRROR`, where `Header.Values`, which reads header names without regard to case as
HTTP does, finds it under the name as written. The skip list of the single-tenant variant does
not change what is copied. -/
theorem mirrorUrl_forwarded_headers (mcfg : MiniMirror.Config) (conf : TonMirror.TargetInfo)
    (net : Net) (url : String) (c : Ctx) (name : String) :
    (MiniMirror.mirrorUrl mcfg net url c 0).sent =
      List.replicate (MiniMirror.mirrorUrl mcfg net url c 0).sent.length
        (MiniMirror.newRequest net url c) ∧
    (TonMirror.mirrorUrl net url c 0 conf).sent =
      List.replicate (TonMirror.mirrorUrl net url c 0 conf).sent.length
        (TonMirror.newRequest net url c) ∧
    (MiniMirror.newRequest net url c).Header name =
      (if name ∈ ["Host", "Accept", "User-Agent", "Accept-Language"] then
        inboundValues c.GetReqHeaders name else []) ++
      (if name = "Minimirror" then ["TRUE"] else []) ∧
    http.Header.Values (MiniMirror.newRequest net url c).Header "MINIMIRROR" = ["TRUE"] ∧
    (TonMirror.newRequest net url c).Header name =
      (if name ∈ ["Host", "Accept", "User-Agent", "Accept-Language"] then
        inboundValues c.GetReqHeaders name else []) ++
      (if name = "Ton_mirror" then ["TRUE"] else []) ∧
    http.Header.Values (TonMirror.newRequest net url c).Header "TON_MIRROR" = ["TRUE"] ∧
    MiniMirror.copyHeaders c.GetReqHeaders MultiMap.empty =
      TonMirror.copyHeaders c.GetReqHeaders MultiMap.empty := by
  have hmini : ∀ key, (MiniMirror.newRequest net url c).Header key =
      (if key ∈ ["Host", "Accept", "User-Agent", "Accept-Language"] then
        inboundValues c.GetReqHeaders key else []) ++
      (if key = "Minimirror" then ["TRUE"] else []) := by
    intro key
    show (http.Header.Add (MiniMirror.copyHeaders c.GetReqHeaders MultiMap.empty)
      "MINIMIRROR" "TRUE") key = _
    rw [MiniMirror.copyHeaders_eq_ton]
    unfold http.Header.Add MultiMap.Add
    rw [textproto.canonical_markers.1, TonMirror.copyHeaders_apply]
    by_cases hm : key = "Minimirror"
    · subst hm
      have hnot : "Minimirror" ∉ TonMirror.forwardedHeaders := by decide
      simp [MultiMap.empty, hnot]
    · simp [hm, MultiMap.empty, TonMirror.forwardedHeaders]
  have hton : ∀ key, (TonMirror.newRequest net url c).Header key =
      (if key ∈ ["Host", "Accept", "User-Agent", "Accept-Language"] then
        inboundValues c.GetReqHeaders key else []) ++
      (if key = "Ton_mirror" then ["TRUE"] else []) := by
    intro key
    show (http.Header.Add (TonMirror.copyHeaders c.GetReqHeaders MultiMap.empty)
      "TON_MIRROR" "TRUE") key = _
    unfold http.Header.Add MultiMap.Add
    rw [textproto.canonical_markers.2, TonMirror.copyHeaders_apply]
    by_cases hm : key = "Ton_mirror"
    · subst hm
      have hnot : "Ton_mirror" ∉ TonMirror.forwardedHeaders := by decide
      simp [MultiMap.empty, hnot]
    · simp [hm, MultiMap.empty, TonMirror.forwardedHeaders]
  refine ⟨MiniMirror.mirrorUrl_sent _ _ _ _, TonMirror.ton_mirrorUrl_sent _ _ _ _, hmini name,
    ?_, hton name, ?_, MiniMirror.copyHeaders_eq_ton _ _⟩
  · unfold http.Header.Values
    rw [textproto.canonical_markers.1, hmini]
    rw [if_neg (by decide), if_pos rfl]
    rfl
  · unfold http.Header.Values
    rw [textproto.canonical_markers.2, hton]
    rw [if_neg (by decide), if_pos rfl]
    rfl

/-- Witness of C3: of the inbound headers `Host`, `Accept` (two values), `Cookie` and
`If-None-Match`, the outbound request keeps both `Accept` values and no `Cookie`, and it
carries the marker. -/
theorem mirrorUrl_forwarded_headers_witness :
    (MiniMirror.newRequest Examples.always503 "http://origin.example/page"
        Examples.getPage).Header "Accept" = ["text/html", "*/*"] ∧
    (TonMirror.newRequest Examples.always503 "http://origin.example/page"
        Examples.getPage).Header "Cookie" = [] ∧
    http.Header.Values (MiniMirror.newRequest Examples.always503 "http://origin.example/page"
        Examples.getPage).Header "MINIMIRROR" = ["TRUE"] ∧
    http.Header.Values (TonMirror.newRequest Examples.always503 "http://origin.example/page"
        Examples.getPage).Header "TON_MIRROR" = ["TRUE"] :=
  ⟨(mirrorUrl_forwarded_headers Examples.miniCfg Examples.tonConf Examples.always503
      "http://origin.example/page" Examples.getPage "Accept").2.2.1.trans (by decide),
   (mirrorUrl_forwarded_headers Examples.miniCfg Examples.tonConf Examples.always503
      "http://origin.example/page" Examples.getPage "Cookie").2.2.2.2.1.trans (by decide),
   (mirrorUrl_forwarded_headers Examples.miniCfg Examples.tonConf Examples.always503
      "http://origin.example/page" Examples.getPage "Accept").2.2.2.1,
   (mirrorUrl_forwarded_headers Examples.miniCfg Examples.tonConf Examples.always503
      "http://origin.example/page" Examples.getPage "Accept").2.2.2.2.2.1⟩

/-- The values of a key in a query map are the values paired with it. -/
theorem Mirror.mem_inboundQuery (queries : List (String × String)) (key val : String) :
    val ∈ inboundQuery queries key ↔ (key, val) ∈ queries := by
  unfold inboundQuery
  constructor
  · intro h
    obtain ⟨kv, hkv, hval⟩ := List.mem_map.mp h
    obtain ⟨hmem, hkey⟩ := List.mem_filter.mp hkv
    have hk : kv.1 = key := by simpa using hkey
    have : kv = (key, val) := Prod.ext hk hval
    rw [← this]; exact hmem
  · intro h
    exact List.mem_map.mpr ⟨(key, val), List.mem_filter.mpr ⟨h, by simp⟩, rfl⟩

/-- A key that is absent has no values. -/
theorem Mirror.inboundQuery_of_not_mem (queries : List (String × String)) (key : String)
    (h : key ∉ queries.map (fun kv => kv.1)) : inboundQuery queries key = [] := by
  apply List.eq_nil_iff_forall_not_mem.mpr
  intro val hval
  have := (mem_inboundQuery queries key val).mp hval
  exact h (List.mem_map.mpr ⟨(key, val), this, rfl⟩)

/-- In a map, where keys are pairwise distinct, a key has at most one value. -/
theorem Mirror.inboundQuery_length_le (queries : List (String × String)) (key : String)
    (hnd : (queries.map (fun kv => kv.1)).Nodup) : (inboundQuery queries key).length ≤ 1 := by
  induction queries with
  | nil => simp [inboundQuery]
  | cons kv queries ih =>
    rw [List.map_cons, List.nodup_cons] at hnd
    by_cases hk : kv.1 = key
    · have hnil := inboundQuery_of_not_mem queries key (hk ▸ hnd.1)
      have : inboundQuery (kv :: queries) key = kv.2 :: inboundQuery queries key := by
        simp [inboundQuery, List.filter_cons, hk]
      rw [this, hnil]; simp
    · have : inboundQuery (kv :: queries) key = inboundQuery queries key := by
        simp [inboundQuery, List.filter_cons, hk]
      rw [this]; exact ih hnd.2

/-- Two lists with at most one entry and the same members are equal. -/
theorem Mirror.eq_of_length_le_one {α : Type} (l₁ l₂ : List α) (h₁ : l₁.length ≤ 1)
    (h₂ : l₂.length ≤ 1) (hmem : ∀ a, a ∈ l₁ ↔ a ∈ l₂) : l₁ = l₂ := by
  match l₁, l₂, h₁, h₂, hmem with
  | [], [], _, _, _ => rfl
  | [], b :: _, _, _, hmem => exact absurd ((hmem b).mpr (List.mem_cons_self _ _)) (by simp)
  | a :: _, [], _, _, hmem => exact absurd ((hmem a).mp (List.mem_cons_self _ _)) (by simp)
  | [a], [b], _, _, hmem =>
    have : a = b := by simpa using (hmem a).mp (List.mem_cons_self _ _)
    rw [this]
  | _ :: _ :: _, _, h₁, _, _ => simp at h₁
  | _, _ :: _ :: _, _, h₂, _ => simp at h₂

/-- Two query maps that agree on every parameter other than `EXTERNAL_URL` give the same
outbound query, whatever the order in which their entries are visited. -/
theorem Mirror.copyQueries_congr (q : MultiMap) (queries queries' : List (String × String))
    (hnd : (queries.map (fun kv => kv.1)).Nodup)
    (hnd' : (queries'.map (fun kv => kv.1)).Nodup)
    (hagree : ∀ key val, key ≠ "EXTERNAL_URL" →
      ((key, val) ∈ queries ↔ (key, val) ∈ queries')) :
    copyQueries queries q = copyQueries queries' q := by
  funext key
  rw [copyQueries_apply, copyQueries_apply]
  by_cases hk : key = "EXTERNAL_URL"
  · simp [hk]
  · simp only [hk, if_false]
    congr 1
    apply eq_of_length_le_one _ _ (inboundQuery_length_le _ _ hnd)
      (inboundQuery_length_le _ _ hnd')
    intro val
    rw [mem_inboundQuery, mem_inboundQuery]
    exact hagree key val hk

/-- C4: when the URL itself carries no `EXTERNAL_URL` parameter, the query of the outbound
request has no value under `EXTERNAL_URL`; under every other key it has the URL's own values
followed by the inbound values of that key, so every other inbound parameter is there with its
inbound value; and two inbound requests whose query maps differ only in `EXTERNAL_URL` produce
the same outbound query. The query loop is the same in both variants. -/
theorem newRequest_query_drops_external_url (net : Net) (url : String) (c c' : Ctx)
    (hurl : net.urlQuery url "EXTERNAL_URL" = []) :
    (MiniMirror.newRequest net url c).Query "EXTERNAL_URL" = [] ∧
    (∀ key, key ≠ "EXTERNAL_URL" →
      (MiniMirror.newRequest net url c).Query key =
        net.urlQuery url key ++ inboundQuery c.Queries key) ∧
    (∀ key val, (key, val) ∈ c.Queries → key ≠ "EXTERNAL_URL" →
      val ∈ (MiniMirror.newRequest net url c).Query key) ∧
    ((c.Queries.map (fun kv => kv.1)).Nodup → (c'.Queries.map (fun kv => kv.1)).Nodup →
      (∀ key val, key ≠ "EXTERNAL_URL" → ((key, val) ∈ c.Queries ↔ (key, val) ∈ c'.Queries)) →
      (MiniMirror.newRequest net url c).Query = (MiniMirror.newRequest net url c').Query) ∧
    (TonMirror.newRequest net url c).Query = (MiniMirror.newRequest net url c).Query := by
  refine ⟨?_, ?_, ?_, ?_, rfl⟩
  · show copyQueries c.Queries (net.urlQuery url) "EXTERNAL_URL" = []
    rw [copyQueries_apply, hurl]; simp
  · intro key hk
    show copyQueries c.Queries (net.urlQuery url) key = _
    rw [copyQueries_apply]; simp [hk]
  · intro key val hmem hk
    show val ∈ copyQueries c.Queries (net.urlQuery url) key
    rw [copyQueries_apply]
    simp only [hk, if_false]
    exact List.mem_append_right _ ((mem_inboundQuery _ _ _).mpr hmem)
  · intro hnd hnd' hagree
    exact copyQueries_congr _ _ _ hnd hnd' hagree

/-- Witness of C4: the request `GET /page?page=2&EXTERNAL_URL=http://other.example` is sent on
with `page=2` and without `EXTERNAL_URL`, and so is the same request with
`EXTERNAL_URL=http://third.example`. -/
theorem newRequest_query_drops_external_url_witness :
    (MiniMirror.newRequest Examples.always503 "http://origin.example/page"
        Examples.getPage).Query "EXTERNAL_URL" = [] ∧
    (MiniMirror.newRequest Examples.always503 "http://origin.example/page"
        Examples.getPage).Query "page" = ["2"] ∧
    (MiniMirror.newRequest Examples.always503 "http://origin.example/page"
        Examples.getPage).Query =
      (MiniMirror.newRequest Examples.always503 "http://origin.example/page"
        Examples.getPageElsewhere).Query :=
  ⟨(newRequest_query_drops_external_url Examples.always503 "http://origin.example/page"
      Examples.getPage Examples.getPageElsewhere rfl).1,
   ((newRequest_query_drops_external_url Examples.always503 "http://origin.example/page"
      Examples.getPage Examples.getPageElsewhere rfl).2.1 "page" (by decide)).trans (by decide),
   (newRequest_query_drops_external_url Examples.always503 "http://origin.example/page"
      Examples.getPage Examples.getPageElsewhere rfl).2.2.2.1 (by decide) (by decide)
      (by
        intro key val hk
        simp [Examples.getPage, Examples.getPageElsewhere, hk])⟩

/-! ## Resolution of the target -/

/-- An attempt that is not retried ends the loop. -/
theorem Mirror.retryLoop_stop (req : Request) (rewrite : String → String) (net : Net)
    (retry : Int) (h : (net.outcomes 0).retryable = false) :
    retryLoop req rewrite net retry = ⟨[req], finish rewrite (net.outcomes 0)⟩ := by
  rw [retryLoop]; simp [h]

/-- The multi-tenant handler, when the host header is absent. -/
theorem TonMirror.handleInternalRequest_no_host (cfg : TonMirror.Config) (net : Net) (c : Ctx)
    (h : (c.GetReqHeaders.lookup cfg.hostHeader).getD [] = []) :
    TonMirror.handleInternalRequest cfg net c = ⟨[], .Send 400 [] "Host header is not set"⟩ := by
  simp [TonMirror.handleInternalRequest, h]

/-- The multi-tenant handler, when the host is not a key of the configuration. -/
theorem TonMirror.handleInternalRequest_unknown (cfg : TonMirror.Config) (net : Net) (c : Ctx)
    (host : String) (more : List String)
    (h : (c.GetReqHeaders.lookup cfg.hostHeader).getD [] = host :: more)
    (hcfg : cfg.config host = none) :
    TonMirror.handleInternalRequest cfg net c = ⟨[], .Send 404 [] "Host config not found"⟩ := by
  simp [TonMirror.handleInternalRequest, h, hcfg]

/-- The multi-tenant handler, when the host is a key of the configuration. -/
theorem TonMirror.handleInternalRequest_found (cfg : TonMirror.Config) (net : Net) (c : Ctx)
    (host : String) (more : List String) (conf : TonMirror.TargetInfo)
    (h : (c.GetReqHeaders.lookup cfg.hostHeader).getD [] = host :: more)
    (hcfg : cfg.config host = some conf) :
    TonMirror.handleInternalRequest cfg net c =
      TonMirror.mirrorUrl net (conf.Target ++ c.Path) c 0 (cfg.index "sota.ton") := by
  simp [TonMirror.handleInternalRequest, h, hcfg]

/-- C5: in the multi-tenant variant, when the host-identity header is absent the internal
handler replies 400 with the body `Host header is not set`; when it is present and its first
value is not a key of the configuration the handler replies 404 with the body
`Host config not found`; in both cases no outbound request is made. -/
theorem handleInternalRequest_host_errors (cfg : TonMirror.Config) (net : Net) (c : Ctx) :
    ((c.GetReqHeaders.lookup cfg.hostHeader).getD [] = [] →
      (TonMirror.handleInternalRequest cfg net c).reply =
          .Send 400 [] "Host header is not set" ∧
        (TonMirror.handleInternalRequest cfg net c).sent = []) ∧
    (∀ host more, (c.GetReqHeaders.lookup cfg.hostHeader).getD [] = host :: more →
      cfg.config host = none →
        (TonMirror.handleInternalRequest cfg net c).reply =
            .Send 404 [] "Host config not found" ∧
          (TonMirror.handleInternalRequest cfg net c).sent = []) := by
  constructor
  · intro h
    rw [TonMirror.handleInternalRequest_no_host cfg net c h]
    exact ⟨rfl, rfl⟩
  · intro host more h hcfg
    rw [TonMirror.handleInternalRequest_unknown cfg net c host more h hcfg]
    exact ⟨rfl, rfl⟩

/-- Witness of C5: with the one host `a.example` configured, a request without `Host` gets 400
and a request for `b.example` gets 404, and neither reaches a backend. -/
theorem handleInternalRequest_host_errors_witness :
    ((TonMirror.handleInternalRequest Examples.tonCfg Examples.tenantPage
        Examples.getPageNoHost).reply = .Send 400 [] "Host header is not set" ∧
      (TonMirror.handleInternalRequest Examples.tonCfg Examples.tenantPage
        Examples.getPageNoHost).sent = []) ∧
    ((TonMirror.handleInternalRequest Examples.tonCfg Examples.tenantPage
        (Examples.getPageAt "b.example")).reply = .Send 404 [] "Host config not found" ∧
      (TonMirror.handleInternalRequest Examples.tonCfg Examples.tenantPage
        (Examples.getPageAt "b.example")).sent = []) :=
  ⟨(handleInternalRequest_host_errors Examples.tonCfg Examples.tenantPage
      Examples.getPageNoHost).1 (by decide),
   (handleInternalRequest_host_errors Examples.tonCfg Examples.tenantPage
      (Examples.getPageAt "b.example")).2 "b.example" [] (by decide) rfl⟩

/-- C9, amended: on the internal path every outbound request of the single-tenant variant goes
to `TargetEndpoint + p` when `TargetEndpoint` is non-empty and to `TargetDomain + p` when it is
empty; in the multi-tenant variant every outbound request goes to `Target + p` for the entry
found for the request's host, whether or not `Target` is empty. In each case at least one
request is sent when `http.NewRequest` accepts that URL. -/
theorem handleInternalRequest_outbound_url (mcfg : MiniMirror.Config) (tcfg : TonMirror.Config)
    (net : Net) (c : Ctx) :
    (mcfg.TargetEndpoint ≠ "" →
      (∀ r ∈ (MiniMirror.handleInternalRequest mcfg net c).sent,
        r.URL = mcfg.TargetEndpoint ++ c.Path) ∧
      (net.newRequestErr c.Method (mcfg.TargetEndpoint ++ c.Path) = false →
        1 ≤ (MiniMirror.handleInternalRequest mcfg net c).sent.length)) ∧
    (mcfg.TargetEndpoint = "" →
      (∀ r ∈ (MiniMirror.handleInternalRequest mcfg net c).sent,
        r.URL = mcfg.TargetDomain ++ c.Path) ∧
      (net.newRequestErr c.Method (mcfg.TargetDomain ++ c.Path) = false →
        1 ≤ (MiniMirror.handleInternalRequest mcfg net c).sent.length)) ∧
    (∀ host more conf, (c.GetReqHeaders.lookup tcfg.hostHeader).getD [] = host :: more →
      tcfg.config host = some conf →
      (∀ r ∈ (TonMirror.handleInternalRequest tcfg net c).sent,
        r.URL = conf.Target ++ c.Path) ∧
      (net.newRequestErr c.Method (conf.Target ++ c.Path) = false →
        1 ≤ (TonMirror.handleInternalRequest tcfg net c).sent.length)) := by
  refine ⟨?_, ?_, ?_⟩
  · intro he
    have hh : MiniMirror.handleInternalRequest mcfg net c =
        MiniMirror.mirrorUrl mcfg net (mcfg.TargetEndpoint ++ c.Path) c 0 := by
      simp [MiniMirror.handleInternalRequest, he]
    rw [hh]
    refine ⟨?_, MiniMirror.mirrorUrl_sent_pos _ _ _ _⟩
    intro r hr
    rw [MiniMirror.mirrorUrl_sent] at hr
    rw [List.eq_of_mem_replicate hr]; rfl
  · intro he
    have hh : MiniMirror.handleInternalRequest mcfg net c =
        MiniMirror.mirrorUrl mcfg net (mcfg.TargetDomain ++ c.Path) c 0 := by
      simp [MiniMirror.handleInternalRequest, he]
    rw [hh]
    refine ⟨?_, MiniMirror.mirrorUrl_sent_pos _ _ _ _⟩
    intro r hr
    rw [MiniMirror.mirrorUrl_sent] at hr
    rw [List.eq_of_mem_replicate hr]; rfl
  · intro host more conf h hcfg
    rw [TonMirror.handleInternalRequest_found tcfg net c host more conf h hcfg]
    refine ⟨?_, TonMirror.ton_mirrorUrl_sent_pos _ _ _ _⟩
    intro r hr
    rw [TonMirror.ton_mirrorUrl_sent] at hr
    rw [List.eq_of_mem_replicate hr]; rfl

/-- Witness of C9, amended: with domain `origin.example` and no endpoint the single-tenant
handler sends `GET /page` to `origin.example/page`; with the host `a.example` mapped to the
target `http://backend-a` the multi-tenant handler sends it to `http://backend-a/page`. -/
theorem handleInternalRequest_outbound_url_witness :
    ((∀ r ∈ (MiniMirror.handleInternalRequest Examples.miniCfg Examples.originPage
        Examples.getPage).sent, r.URL = "origin.example/page") ∧
      1 ≤ (MiniMirror.handleInternalRequest Examples.miniCfg Examples.originPage
        Examples.getPage).sent.length) ∧
    ((∀ r ∈ (TonMirror.handleInternalRequest Examples.tonCfg Examples.tenantPage
        (Examples.getPageAt "a.example")).sent, r.URL = "http://backend-a/page") ∧
      1 ≤ (TonMirror.handleInternalRequest Examples.tonCfg Examples.tenantPage
        (Examples.getPageAt "a.example")).sent.length) :=
  ⟨⟨((handleInternalRequest_outbound_url Examples.miniCfg Examples.tonCfg Examples.originPage
        Examples.getPage).2.1 rfl).1,
     ((handleInternalRequest_outbound_url Examples.miniCfg Examples.tonCfg Examples.originPage
        Examples.getPage).2.1 rfl).2 rfl⟩,
   ⟨((handleInternalRequest_outbound_url Examples.miniCfg Examples.tonCfg Examples.tenantPage
        (Examples.getPageAt "a.example")).2.2 "a.example" [] Examples.tonConf
        (by decide) rfl).1,
     ((handleInternalRequest_outbound_url Examples.miniCfg Examples.tonCfg Examples.tenantPage
        (Examples.getPageAt "a.example")).2.2 "a.example" [] Examples.tonConf
        (by decide) rfl).2 rfl⟩⟩

/-- C9 as stated fails in the multi-tenant variant: for an entry with domain `a.example` and
an empty `target`, the outbound URL of `GET /page` is `/page`, not `a.example/page`. -/
theorem handleInternalRequest_empty_target_url :
    (Examples.tonCfgNoTarget.config "a.example").map (fun conf => conf.Domain)
      = some "a.example" ∧
    (Examples.tonCfgNoTarget.config "a.example").map (fun conf => conf.Target) = some "" ∧
    (TonMirror.handleInternalRequest Examples.tonCfgNoTarget Examples.unreachable
        (Examples.getPageAt "a.example")).sent.map (fun r => r.URL)
      = ["/page", "/page", "/page", "/page"] ∧
    "/page" ≠ "a.example" ++ "/page" := by
  refine ⟨rfl, rfl, ?_, by decide⟩
  rw [TonMirror.handleInternalRequest_found Examples.tonCfgNoTarget Examples.unreachable
    (Examples.getPageAt "a.example") "a.example" []
    { Domain := "a.example", Target := "", SecondaryDomains := [] } (by decide) rfl]
  rw [TonMirror.ton_mirrorUrl_sent, TonMirror.ton_mirrorUrl_zero _ _ _ _ rfl]
  rw [(retryLoop_all_retryable _ _ Examples.unreachable (fun _ => rfl)).1]
  rfl

/-- C10, the code at a failing input: with the one host `a.example` configured (domain
`a.example`, target `http://backend-a`) and no entry `sota.ton`, a request for `a.example`
whose backend answers `Visit a.example/page` is sent to `http://backend-a/page`, the target of
the entry of `a.example`, but the reply body is rewritten with `config["sota.ton"]`, here the
zero value, and stays `Visit a.example/page`; rewritten with the entry of `a.example` it would
be `Visit /page`. -/
theorem handleInternalRequest_rewrites_with_sota_ton :
    (TonMirror.handleInternalRequest Examples.tonCfg Examples.tenantPage
        (Examples.getPageAt "a.example")).sent.map (fun r => r.URL)
      = ["http://backend-a/page"] ∧
    (TonMirror.handleInternalRequest Examples.tonCfg Examples.tenantPage
        (Examples.getPageAt "a.example")).reply = .Send 200 [] "Visit a.example/page" ∧
    TonMirror.rewriteBody Examples.tonConf "Visit a.example/page" = "Visit /page" := by
  have hfound := TonMirror.handleInternalRequest_found Examples.tonCfg Examples.tenantPage
    (Examples.getPageAt "a.example") "a.example" [] Examples.tonConf (by decide) rfl
  have hloop := retryLoop_stop
    (TonMirror.newRequest Examples.tenantPage
      (Examples.tonConf.Target ++ (Examples.getPageAt "a.example").Path)
      (Examples.getPageAt "a.example"))
    (TonMirror.rewriteBody (Examples.tonCfg.index "sota.ton")) Examples.tenantPage 0 rfl
  refine ⟨?_, ?_, by decide⟩
  · rw [hfound, TonMirror.ton_mirrorUrl_zero _ _ _ _ rfl, hloop]; rfl
  · rw [hfound, TonMirror.ton_mirrorUrl_zero _ _ _ _ rfl, hloop]
    show Reply.Send 200 (setCalls [])
      (TonMirror.rewriteBody (Examples.tonCfg.index "sota.ton") "Visit a.example/page") = _
    have hb : TonMirror.rewriteBody (Examples.tonCfg.index "sota.ton") "Visit a.example/page"
        = "Visit a.example/page" := by decide
    rw [hb]; rfl

/-! ## The body rewrite -/

/-- Skipping the rest of a match: after `pre.length` skipped characters the scan resumes. -/
theorem Mirror.replaceScan_skip (old new : List Char) (pre rest : List Char) :
    replaceScan old new pre.length (pre ++ rest) = replaceScan old new 0 rest := by
  induction pre with
  | nil => rfl
  | cons c pre ih => simpa [replaceScan] using ih

/-- At an occurrence of a non-empty `old` the scan emits `new` and goes on behind it. -/
theorem Mirror.replaceScan_match (old new : List Char) (hold : old ≠ []) (v : List Char) :
    replaceScan old new 0 (old ++ v) = new ++ replaceScan old new 0 v := by
  cases old with
  | nil => exact absurd rfl hold
  | cons c o =>
    have hp : (c :: o).isPrefixOf (c :: (o ++ v)) = true := by
      rw [List.isPrefixOf_iff_prefix]
      exact List.prefix_append (c :: o) v
    have hs := replaceScan_skip (c :: o) new o v
    rw [List.cons_append, replaceScan, if_pos hp]
    simp only [List.length_cons, Nat.add_sub_cancel]
    rw [hs]

/-- Where no occurrence of `old` starts, the scan copies the text. -/
theorem Mirror.replaceScan_copy (old new : List Char) (u w : List Char)
    (hno : ∀ k, k < u.length → ¬ old <+: (u ++ w).drop k) :
    replaceScan old new 0 (u ++ w) = u ++ replaceScan old new 0 w := by
  induction u with
  | nil => rfl
  | cons c u ih =>
    have h0 : ¬ old <+: (c :: (u ++ w)) := by
      simpa using hno 0 (by simp)
    have hp : old.isPrefixOf (c :: (u ++ w)) = false := by
      rw [← Bool.not_eq_true, List.isPrefixOf_iff_prefix]; exact h0
    have hrest : ∀ k, k < u.length → ¬ old <+: (u ++ w).drop k := by
      intro k hk
      simpa using hno (k + 1) (by simpa using hk)
    rw [List.cons_append, replaceScan, if_neg (by rw [hp]; simp), ih hrest, List.cons_append]

/-- Text without an occurrence of `old` is left as it is. -/
theorem Mirror.replaceScan_of_not_infix (old new : List Char) (s : List Char)
    (hno : ¬ old <:+: s) : replaceScan old new 0 s = s := by
  have h := replaceScan_copy old new s [] (by
    intro k _ hpre
    apply hno
    rw [List.append_nil] at hpre
    exact hpre.isInfix.trans (List.drop_suffix k s).isInfix)
  rw [List.append_nil] at h
  rw [h]
  simp [replaceScan]

/-- A domain differs from its proxy link, which is longer. -/
theorem Mirror.ne_proxy_link (d : String) : d ≠ "/_EXTERNAL_?EXTERNAL_URL=" ++ d := by
  intro h
  have hlen := congrArg String.length h
  rw [String.length_append] at hlen
  have h25 : ("/_EXTERNAL_?EXTERNAL_URL=" : String).length = 25 := by decide
  omega

/-- For a non-empty domain, `strings.ReplaceAll` towards the proxy link is the scan. -/
theorem strings.ReplaceAll_proxy_link (s d : String) (hd : d ≠ "") :
    strings.ReplaceAll s d ("/_EXTERNAL_?EXTERNAL_URL=" ++ d) =
      ⟨replaceScan d.data ("/_EXTERNAL_?EXTERNAL_URL=" ++ d).data 0 s.data⟩ := by
  unfold strings.ReplaceAll
  rw [if_neg (ne_proxy_link d), if_neg hd]

/-- For a non-empty domain `d` whose first occurrence in the text is behind `u`, that
occurrence becomes the proxy link and the rewrite goes on behind it. -/
theorem strings.ReplaceAll_proxy_link_first (u d v : String) (hd : d ≠ "")
    (hfirst : ∀ k, k < u.length → ¬ d.data <+: (u ++ d ++ v).data.drop k) :
    strings.ReplaceAll (u ++ d ++ v) d ("/_EXTERNAL_?EXTERNAL_URL=" ++ d) =
      u ++ ("/_EXTERNAL_?EXTERNAL_URL=" ++ d) ++
        strings.ReplaceAll v d ("/_EXTERNAL_?EXTERNAL_URL=" ++ d) := by
  rw [strings.ReplaceAll_proxy_link _ _ hd, strings.ReplaceAll_proxy_link _ _ hd]
  apply String.ext
  have hdata : d.data ≠ [] := by
    intro h
    exact hd (String.ext h)
  have hno : ∀ k, k < u.data.length → ¬ d.data <+: (u.data ++ (d.data ++ v.data)).drop k := by
    intro k hk
    have := hfirst k hk
    simpa [String.data_append, List.append_assoc] using this
  simp only [String.data_append, List.append_assoc]
  rw [replaceScan_copy _ _ _ _ hno, replaceScan_match _ _ hdata]
  simp only [List.append_assoc]

/-- A text in which the non-empty domain does not occur is left as it is. -/
theorem strings.ReplaceAll_proxy_link_absent (s d : String) (hd : d ≠ "")
    (hno : ¬ d.data <:+: s.data) :
    strings.ReplaceAll s d ("/_EXTERNAL_?EXTERNAL_URL=" ++ d) = s := by
  rw [strings.ReplaceAll_proxy_link _ _ hd]
  apply String.ext
  exact replaceScan_of_not_infix _ _ _ hno

/-- The secondary-domain step of the single-tenant variant, when it is not skipped. -/
theorem MiniMirror.replaceSecondary_fold (secondary : List String) (body : String)
    (hne : secondary ≠ []) (hfirst : secondary.head? ≠ some "") :
    MiniMirror.replaceSecondary secondary body =
      secondary.foldl (fun body secDomain =>
        strings.ReplaceAll body secDomain ("/_EXTERNAL_?EXTERNAL_URL=" ++ secDomain)) body := by
  cases secondary with
  | nil => exact absurd rfl hne
  | cons d rest =>
    have hd : ¬ d = "" := by
      intro h
      apply hfirst
      rw [h]; rfl
    unfold MiniMirror.replaceSecondary
    rw [if_pos]
    exact ⟨by simp, by simpa using hd⟩

/-- The secondary-domain step of the multi-tenant variant is the fold over the list. -/
theorem TonMirror.ton_replaceSecondary_fold (secondary : List String) (body : String) :
    TonMirror.replaceSecondary secondary body =
      secondary.foldl (fun body secDomain =>
        strings.ReplaceAll body secDomain ("/_EXTERNAL_?EXTERNAL_URL=" ++ secDomain)) body := by
  unfold TonMirror.replaceSecondary
  cases secondary with
  | nil => simp
  | cons d rest => simp

/-- Length of a text with `p` put before every character and at the end. -/
theorem Mirror.length_interleave (p l : List Char) :
    (p ++ l.flatMap (fun c => c :: p)).length = l.length + p.length * (l.length + 1) := by
  induction l with
  | nil => simp
  | cons c l ih =>
    simp only [List.flatMap_cons, List.length_append, List.length_cons] at ih ⊢
    rw [Nat.mul_add, Nat.mul_add] at *
    omega

/-- The block `// Replace preset strings` is the left fold of the rules over the body. -/
theorem MiniMirror.replacePreset_fold (items : List MiniMirror.replaceItem) (body : String) :
    MiniMirror.replacePreset items body =
      items.foldl (fun body item => strings.ReplaceAll body item.Old item.New) body := by
  unfold MiniMirror.replacePreset
  cases items with
  | nil => simp
  | cons item rest => simp

/-- C6: in the single-tenant variant, when the attempt that ends the retry loop got a response
with status `s` and a readable body, the caller is sent status `s` and the body obtained by
(1) folding `strings.ReplaceAll(_, Old, New)` over `ReplaceItems` in configured order, then
(2) replacing `TargetDomain + "/"` by `"/"`, then (3) the secondary-domain step. -/
theorem mirrorUrl_body_pipeline (cfg : MiniMirror.Config) (net : Net) (url : String) (c : Ctx)
    (s : Int) (h : List (String × List String)) (b : String)
    (hN : net.newRequestErr c.Method url = false)
    (hlast : net.outcomes ((MiniMirror.mirrorUrl cfg net url c 0).sent.length - 1)
      = .resp s h (some b)) :
    (MiniMirror.mirrorUrl cfg net url c 0).reply =
      .Send s (setCalls h)
        (MiniMirror.replaceSecondary cfg.SecondaryDomains
          (strings.ReplaceAll
            (cfg.ReplaceItems.foldl
              (fun body item => strings.ReplaceAll body item.Old item.New) b)
            (cfg.TargetDomain ++ "/") "/")) := by
  rw [MiniMirror.mirrorUrl_zero _ _ _ _ hN] at hlast ⊢
  have hp := (retryLoop_statusFromLastAttempt (MiniMirror.newRequest net url c)
    (MiniMirror.rewriteBody cfg) net).2.1 s h b hlast
  rw [hp.2, MiniMirror.rewriteBody, MiniMirror.replaceDomain, MiniMirror.replacePreset_fold]

/-- Witness of C6: with domain `origin.example`, no replace rules and no secondary domains, the
backend body `Visit origin.example/page` with status 200 reaches the caller of `GET /page` as
status 200 with the body `Visit /page`. -/
theorem mirrorUrl_body_pipeline_witness :
    (MiniMirror.handleInternalRequest Examples.miniCfg Examples.originPage
      Examples.getPage).reply = .Send 200 [] "Visit /page" :=
  (mirrorUrl_body_pipeline Examples.miniCfg Examples.originPage "origin.example/page"
    Examples.getPage 200 [] "Visit origin.example/page" rfl rfl).trans
    (congrArg (Reply.Send 200 []) (by decide))

/-- C7, amended: in both variants the secondary-domain step, when it is not skipped, is the
left fold in list order of `strings.ReplaceAll(_, d, "/_EXTERNAL_?EXTERNAL_URL=" + d)`, each
domain acting on the output of the ones before it; and when a non-empty `d` is the only entry,
an occurrence of `d` before which no other occurrence starts becomes
`/_EXTERNAL_?EXTERNAL_URL=d`, the step going on in the same way behind it, and a body without
`d` is left as it is. -/
theorem replaceSecondary_in_list_order (secondary : List String) (body u d v : String) :
    (secondary ≠ [] → secondary.head? ≠ some "" →
      MiniMirror.replaceSecondary secondary body =
        secondary.foldl (fun body secDomain =>
          strings.ReplaceAll body secDomain ("/_EXTERNAL_?EXTERNAL_URL=" ++ secDomain)) body) ∧
    TonMirror.replaceSecondary secondary body =
      secondary.foldl (fun body secDomain =>
        strings.ReplaceAll body secDomain ("/_EXTERNAL_?EXTERNAL_URL=" ++ secDomain)) body ∧
    (d ≠ "" → (∀ k, k < u.length → ¬ d.data <+: (u ++ d ++ v).data.drop k) →
      MiniMirror.replaceSecondary [d] (u ++ d ++ v) =
          u ++ ("/_EXTERNAL_?EXTERNAL_URL=" ++ d) ++ MiniMirror.replaceSecondary [d] v ∧
      TonMirror.replaceSecondary [d] (u ++ d ++ v) =
          u ++ ("/_EXTERNAL_?EXTERNAL_URL=" ++ d) ++ TonMirror.replaceSecondary [d] v) ∧
    (d ≠ "" → ¬ d.data <:+: body.data →
      MiniMirror.replaceSecondary [d] body = body ∧
      TonMirror.replaceSecondary [d] body = body) := by
  refine ⟨MiniMirror.replaceSecondary_fold secondary body,
    TonMirror.ton_replaceSecondary_fold secondary body, ?_, ?_⟩
  · intro hd hfirst
    have hhead : [d].head? ≠ some "" := by simpa using hd
    rw [MiniMirror.replaceSecondary_fold [d] _ (by simp) hhead,
      MiniMirror.replaceSecondary_fold [d] _ (by simp) hhead,
      TonMirror.ton_replaceSecondary_fold, TonMirror.ton_replaceSecondary_fold]
    simp only [List.foldl_cons, List.foldl_nil]
    exact ⟨strings.ReplaceAll_proxy_link_first u d v hd hfirst,
      strings.ReplaceAll_proxy_link_first u d v hd hfirst⟩
  · intro hd hno
    have hhead : [d].head? ≠ some "" := by simpa using hd
    rw [MiniMirror.replaceSecondary_fold [d] _ (by simp) hhead,
      TonMirror.ton_replaceSecondary_fold]
    simp only [List.foldl_cons, List.foldl_nil]
    exact ⟨strings.ReplaceAll_proxy_link_absent body d hd hno,
      strings.ReplaceAll_proxy_link_absent body d hd hno⟩

/-- Witness of C7, amended: with the one secondary domain `cdn.example.com`, the body
`see cdn.example.com/x` becomes `see /_EXTERNAL_?EXTERNAL_URL=cdn.example.com/x`. -/
theorem replaceSecondary_in_list_order_witness :
    MiniMirror.replaceSecondary ["cdn.example.com"] "see cdn.example.com/x" =
      "see /_EXTERNAL_?EXTERNAL_URL=cdn.example.com/x" ∧
    TonMirror.replaceSecondary ["cdn.example.com"] "see cdn.example.com/x" =
      "see /_EXTERNAL_?EXTERNAL_URL=cdn.example.com/x" :=
  ⟨((replaceSecondary_in_list_order ["cdn.example.com"] "" "see " "cdn.example.com" "/x").2.2.1
      (by decide) (by decide)).1.trans (by decide),
   ((replaceSecondary_in_list_order ["cdn.example.com"] "" "see " "cdn.example.com" "/x").2.2.1
      (by decide) (by decide)).2.trans (by decide)⟩

/-- C7 as stated fails: with the secondary domains `example.com` and `cdn.example.com`, the
listed domain `cdn.example.com` occurs in the body `cdn.example.com/x`, but after the step, in
either variant and in either order of the list, the body does not contain
`/_EXTERNAL_?EXTERNAL_URL=cdn.example.com`. -/
theorem replaceSecondary_overlapping_domains :
    "cdn.example.com" ∈ ["example.com", "cdn.example.com"] ∧
    ("cdn.example.com" : String).data <:+: ("cdn.example.com/x" : String).data ∧
    MiniMirror.replaceSecondary ["example.com", "cdn.example.com"] "cdn.example.com/x" =
      "cdn./_EXTERNAL_?EXTERNAL_URL=example.com/x" ∧
    TonMirror.replaceSecondary ["example.com", "cdn.example.com"] "cdn.example.com/x" =
      "cdn./_EXTERNAL_?EXTERNAL_URL=example.com/x" ∧
    MiniMirror.replaceSecondary ["cdn.example.com", "example.com"] "cdn.example.com/x" =
      "/_EXTERNAL_?EXTERNAL_URL=cdn./_EXTERNAL_?EXTERNAL_URL=example.com/x" ∧
    TonMirror.replaceSecondary ["cdn.example.com", "example.com"] "cdn.example.com/x" =
      "/_EXTERNAL_?EXTERNAL_URL=cdn./_EXTERNAL_?EXTERNAL_URL=example.com/x" ∧
    ¬ ("/_EXTERNAL_?EXTERNAL_URL=cdn.example.com" : String).data <:+:
      ("cdn./_EXTERNAL_?EXTERNAL_URL=example.com/x" : String).data ∧
    ¬ ("/_EXTERNAL_?EXTERNAL_URL=cdn.example.com" : String).data <:+:
      ("/_EXTERNAL_?EXTERNAL_URL=cdn./_EXTERNAL_?EXTERNAL_URL=example.com/x" : String).data := by
  refine ⟨by decide, by decide, by decide, by decide, by decide, by decide, by decide,
    by decide⟩

/-- C8, amended: the single-tenant variant skips the secondary-domain step for an empty list
and for a list that is a single empty string, and the multi-tenant variant for an empty list:
the body stays as it is. For a single empty string the multi-tenant variant does not skip the
step: it calls `strings.ReplaceAll(body, "", "/_EXTERNAL_?EXTERNAL_URL=")`, which puts the 25
characters of the link before every character of the body and at its end. -/
theorem replaceSecondary_skipped (body : String) :
    MiniMirror.replaceSecondary [] body = body ∧
    MiniMirror.replaceSecondary [""] body = body ∧
    TonMirror.replaceSecondary [] body = body ∧
    TonMirror.replaceSecondary [""] body =
      strings.ReplaceAll body "" "/_EXTERNAL_?EXTERNAL_URL=" ∧
    (TonMirror.replaceSecondary [""] body).length = body.length + 25 * (body.length + 1) := by
  have hton : TonMirror.replaceSecondary [""] body =
      strings.ReplaceAll body "" "/_EXTERNAL_?EXTERNAL_URL=" := by
    rw [TonMirror.ton_replaceSecondary_fold]; rfl
  refine ⟨by simp [MiniMirror.replaceSecondary], by simp [MiniMirror.replaceSecondary],
    by simp [TonMirror.replaceSecondary], hton, ?_⟩
  rw [hton]
  unfold strings.ReplaceAll
  rw [if_neg (by decide), if_pos rfl]
  show (("/_EXTERNAL_?EXTERNAL_URL=" : String).data ++
    body.data.flatMap (fun c => c :: ("/_EXTERNAL_?EXTERNAL_URL=" : String).data)).length = _
  rw [length_interleave]
  rfl

/-- C8 as stated fails in the multi-tenant variant: for the list that is a single empty string
and the body `ab`, the step gives a body of 77 characters, not `ab`. -/
theorem replaceSecondary_single_empty_string :
    TonMirror.replaceSecondary [""] "ab" =
      "/_EXTERNAL_?EXTERNAL_URL=a/_EXTERNAL_?EXTERNAL_URL=b/_EXTERNAL_?EXTERNAL_URL=" ∧
    TonMirror.replaceSecondary [""] "ab" ≠ "ab" ∧
    TonMirror.rewriteBody ⟨"a.example", "http://backend-a", [""]⟩ "ab" ≠
      TonMirror.replaceDomain "a.example" "ab" := by
  refine ⟨by decide, by decide, by decide⟩
